import Mathlib

/-!
Verification development for the `lambda-url-iam` repository.

The subject is the authenticating edge function `src/lambda-edge/authEdge.js`:
it validates a bearer token carried in the `authorization` header (parameters
for the verifier are fetched from a remote parameter store), and on success
re-signs the request with SigV4 credentials and forwards it to the origin over
HTTPS, mapping every outcome to a `ProxyResponse`.

Shallow embedding conventions:
* JavaScript exceptions are modelled by `Except JsError`; a JS statement that
  can throw a `TypeError` (property access on `undefined`) is a fallible step.
* The external collaborators (SSM parameter store, Cognito verifier, axios
  transport) are oracles bundled in a `World`; the handler is a pure function
  of the event, the module state and the `World`.
* JS strings that flow into `Buffer` byte operations are represented by their
  UTF-8 byte sequences (`List Nat`, each element `< 256`); this is exact for
  the valid-UTF-8 payloads the claims are about.
* The module initialisation of `authEdge.js` (destructuring `process.env` and
  constructing the `SignatureV4` singleton, lines 7-31) is modelled by
  `moduleInit`, which runs once per process; handler invocations receive the
  resulting `ModuleState`.
* Each invocation additionally produces an `InvocationLog` recording the
  parameter-store fetches issued, the dispatches handed to the transport and
  the errors written via `console.error`; this instrumentation lets us state
  the cache, forwarding and logging claims without changing control flow.
-/

/-- A thrown JavaScript error: either a `TypeError` raised by the engine on a
bad property access, or an error thrown/rejected by an external library. -/
inductive JsError where
  | typeError (msg : String)
  | thrown (msg : String)
deriving Repr, DecidableEq

/-- The uniform response shape returned by the handler
(`{status, statusDescription, body}`). -/
structure ProxyResponse where
  status : String
  statusDescription : String
  body : String
deriving Repr, DecidableEq

/-- The 403 response literal of `authEdge.js` lines 41-45 and 64-68. -/
def forbiddenResponse : ProxyResponse :=
  { status := "403", statusDescription := "Forbidden", body := "Unauthorized" }

/-- The 500 response literal of `authEdge.js` lines 89-93. -/
def serverErrorResponse : ProxyResponse :=
  { status := "500", statusDescription := "Internal Server Error",
    body := "Internal Server Error" }

/-- One entry of a CloudFront header value list (`{key, value}`; only `value`
is read by the handler). -/
structure HeaderVal where
  value : String
deriving Repr, DecidableEq

/-- CloudFront event headers: a map from lower-cased header name to the list
of its values, modelled as an association list.  A JS lookup of an absent key
yields `undefined`, modelled by `none`. -/
abbrev Headers := List (String × List HeaderVal)

/-- `headers[name]` of the JS object. -/
def hdrLookup (hs : Headers) (name : String) : Option (List HeaderVal) :=
  List.lookup name hs

/-- The optional request body of the event: `{data, encoding}`.  `data` holds
the text as delivered (base64 text when `encoding = "base64"`). -/
structure ReqBody where
  data : String
  encoding : String
deriving Repr, DecidableEq

/-- The CloudFront request record `event.Records[0].cf.request` (the
surrounding `Records[0].cf` wrapper is guaranteed by the edge runtime and
elided).  `originDomainName` is `origin.custom.domainName`. -/
structure CfRequest where
  method : String
  uri : String
  querystring : String
  headers : Headers
  originDomainName : String
  body : Option ReqBody
deriving Repr, DecidableEq

/-- The JS truthiness test `cfRequest.body && cfRequest.body.data`
(line 98): a body is forwarded only when present with non-empty `data`. -/
def hasForwardBody : Option ReqBody → Bool
  | some b => b.data ≠ ""
  | none => false

/-- The parts of `new URL` read by the handler.  Modelled for the inputs this
program produces: `uri` starts with `/` and the domain name carries no port,
credentials or fragment, on which WHATWG URL normalisation is the identity,
`host = hostname = domain` and `href = "https://" ++ domain ++ uri`. -/
structure UrlParts where
  protocol : String
  host : String
  hostname : String
  pathname : String
  href : String
deriving Repr, DecidableEq

/-- `new URL("https://" + domainName + uri)` of `authEdge.js` line 71. -/
def mkUrl (domainName uri : String) : UrlParts :=
  { protocol := "https:", host := domainName, hostname := domainName,
    pathname := uri, href := "https://" ++ domainName ++ uri }

/-- A minimal JSON value type for origin response payloads (`result.data`). -/
inductive Json where
  | jnull : Json
  | jbool (b : Bool) : Json
  | jnum (n : Int) : Json
  | jstr (s : String) : Json
  | jarr (xs : List Json) : Json
  | jobj (fs : List (String × Json)) : Json

/-- Escape a JSON string body (backslash and double quote). -/
def jsonEscape (s : String) : String :=
  String.join (s.data.map (fun c =>
    if c = Char.ofNat 92 then "\\\\"
    else if c = Char.ofNat 34 then "\\\"" else String.mk [c]))

mutual

/-- `JSON.stringify` on the modelled JSON values. -/
def Json.stringify : Json → String
  | .jnull => "null"
  | .jbool b => if b then "true" else "false"
  | .jnum n => toString n
  | .jstr s => "\"" ++ jsonEscape s ++ "\""
  | .jarr xs => "[" ++ Json.stringifyList xs ++ "]"
  | .jobj fs => "\x7b" ++ Json.stringifyFields fs ++ "\x7d"

/-- Comma-joined serialisation of a JSON array's elements. -/
def Json.stringifyList : List Json → String
  | [] => ""
  | [x] => Json.stringify x
  | x :: xs => Json.stringify x ++ "," ++ Json.stringifyList xs

/-- Comma-joined serialisation of a JSON object's fields. -/
def Json.stringifyFields : List (String × Json) → String
  | [] => ""
  | [(k, v)] => "\"" ++ jsonEscape k ++ "\":" ++ Json.stringify v
  | (k, v) :: fs =>
      "\"" ++ jsonEscape k ++ "\":" ++ Json.stringify v ++ "," ++
        Json.stringifyFields fs

end

/-- SigV4 credentials (access key id, secret access key, session token). -/
structure Credentials where
  accessKeyId : String
  secretAccessKey : String
  sessionToken : String
deriving Repr, DecidableEq

/-- The process environment variables destructured at module load
(`authEdge.js` lines 7-11). -/
structure ProcessEnv where
  AWS_ACCESS_KEY_ID : String
  AWS_SECRET_ACCESS_KEY : String
  AWS_SESSION_TOKEN : String
deriving Repr, DecidableEq

/-- The `SignatureV4` instance configuration (`authEdge.js` lines 22-31). -/
structure Sigv4 where
  service : String
  region : String
  credentials : Credentials
deriving Repr, DecidableEq

/-- Module-level state built once per cold process: the `SignatureV4`
singleton constructed from the environment read at load time. -/
structure ModuleState where
  sigv4 : Sigv4
deriving Repr, DecidableEq

/-- Module initialisation (`authEdge.js` lines 7-31): reads the three
credential variables from the environment once and captures them in the
`SignatureV4` instance. -/
def moduleInit (env : ProcessEnv) : ModuleState :=
  { sigv4 :=
    { service := "lambda", region := "eu-central-1",
      credentials :=
      { accessKeyId := env.AWS_ACCESS_KEY_ID,
        secretAccessKey := env.AWS_SECRET_ACCESS_KEY,
        sessionToken := env.AWS_SESSION_TOKEN } } }

/-- The base64 alphabet: the character for a 6-bit value (`0 ≤ v < 64`). -/
def sextetToChar (v : Nat) : Char :=
  if v < 26 then Char.ofNat (65 + v)
  else if v < 52 then Char.ofNat (97 + (v - 26))
  else if v < 62 then Char.ofNat (48 + (v - 52))
  else if v = 62 then '+'
  else '/'

/-- Inverse of the base64 alphabet: the 6-bit value of an alphabet char. -/
def charToSextet (c : Char) : Nat :=
  if 65 ≤ c.toNat ∧ c.toNat ≤ 90 then c.toNat - 65
  else if 97 ≤ c.toNat ∧ c.toNat ≤ 122 then c.toNat - 97 + 26
  else if 48 ≤ c.toNat ∧ c.toNat ≤ 57 then c.toNat - 48 + 52
  else if c = '+' then 62
  else 63

/-- Standard base64 encoding of a byte sequence (with `=` padding), i.e. the
text produced by `Buffer.from(bytes).toString('base64')`. -/
def bytesToB64 : List Nat → List Char
  | [] => []
  | [b1] => [sextetToChar (b1 / 4), sextetToChar (b1 % 4 * 16), '=', '=']
  | [b1, b2] =>
      [sextetToChar (b1 / 4), sextetToChar (b1 % 4 * 16 + b2 / 16),
       sextetToChar (b2 % 16 * 4), '=']
  | b1 :: b2 :: b3 :: rest =>
      sextetToChar (b1 / 4) :: sextetToChar (b1 % 4 * 16 + b2 / 16) ::
      sextetToChar (b2 % 16 * 4 + b3 / 64) :: sextetToChar (b3 % 64) ::
      bytesToB64 rest

/-- Standard base64 decoding to a byte sequence, i.e. the bytes produced by
`Buffer.from(text, 'base64')` on well-formed base64 text (Node is lenient on
malformed tails; like Node, a short trailing group is dropped). -/
def b64ToBytes : List Char → List Nat
  | c1 :: c2 :: c3 :: c4 :: rest =>
      let s1 := charToSextet c1
      let s2 := charToSextet c2
      if c3 = '=' then [s1 * 4 + s2 / 16]
      else
        let s3 := charToSextet c3
        if c4 = '=' then [s1 * 4 + s2 / 16, s2 % 16 * 16 + s3 / 4]
        else
          let s4 := charToSextet c4
          (s1 * 4 + s2 / 16) :: (s2 % 16 * 16 + s3 / 4) :: (s3 % 4 * 64 + s4) ::
            b64ToBytes rest
  | _ => []

/-- UTF-8 encoding of a single unicode scalar value. -/
def utf8EncodeCharN (c : Nat) : List Nat :=
  if c < 128 then [c]
  else if c < 2048 then [192 + c / 64, 128 + c % 64]
  else if c < 65536 then [224 + c / 4096, 128 + c / 64 % 64, 128 + c % 64]
  else [240 + c / 262144, 128 + c / 4096 % 64, 128 + c / 64 % 64, 128 + c % 64]

/-- The UTF-8 byte sequence of a string: the byte-level representation of a JS
string handed to `Buffer` (`Buffer.byteLength(s)` is its length). -/
def utf8Bytes (s : String) : List Nat :=
  (s.data.map (fun ch => utf8EncodeCharN ch.toNat)).flatten

/-- An origin HTTP response as seen through axios: its status code and its
parsed payload `result.data`. -/
structure OriginResp where
  status : Nat
  data : Json

/-- The request description handed to `sigv4.sign` (`signV4Options`,
`authEdge.js` lines 73-83, with `body`/`Content-Length` added on lines
104-105).  Header names are the literal JS object keys. -/
structure SignOptions where
  method : String
  hostname : String
  path : String
  protocol : String
  query : String
  headers : List (String × String)
  body : Option (List Nat)
deriving Repr, DecidableEq

/-- Modelled abstraction of the external `SignatureV4` library's signature:
an uninterpreted string determined by the credentials captured in the signer
and the options being signed. -/
def sigv4AuthHeaderValue (creds : Credentials) (opts : SignOptions) : String :=
  "AWS4-HMAC-SHA256 Credential=" ++ creds.accessKeyId ++ " Signature=sig:" ++
    creds.secretAccessKey ++ ":" ++ creds.sessionToken ++ ":" ++
    opts.method ++ " " ++ opts.path

/-- The result of `sigv4.sign(options)`: the same request with an added
`Authorization` header; `signedWith` records the credentials the signature
was computed from. -/
structure SignedRequest where
  opts : SignOptions
  headers : List (String × String)
  signedWith : Credentials
deriving Repr, DecidableEq

/-- Modelled abstraction of `sigv4.sign` (external library): returns the
options with the computed `Authorization` header appended, signed with the
credentials captured in the `SignatureV4` instance at module load. -/
def sigv4Sign (s : Sigv4) (opts : SignOptions) : SignedRequest :=
  { opts := opts,
    headers := opts.headers ++
      [("Authorization", sigv4AuthHeaderValue s.credentials opts)],
    signedWith := s.credentials }

/-- The axios call configuration `{...signed, url, timeout, data}`
(`authEdge.js` lines 109-114): the fields of the signed request spread into
the config, plus the target `url`, the fixed `timeout` and the request
`data`.  `contextHeaders` additionally records the pre-signing
`signV4Options.headers` (the headers placed in the signing context). -/
structure Dispatch where
  method : String
  hostname : String
  path : String
  protocol : String
  query : String
  headers : List (String × String)
  contextHeaders : List (String × String)
  signedWith : Credentials
  url : String
  timeout : Nat
  data : Option (List Nat)
deriving Repr, DecidableEq

/-- The external collaborators, as oracles: the SSM parameter store
(`GetParameter` by name), the Cognito verifier (pool id, client id, token)
and the axios transport. -/
structure World where
  params : String → Except JsError String
  verify : String → String → String → Except JsError Unit
  send : Dispatch → Except JsError OriginResp

/-- `getParameter` (`authEdge.js` lines 16-20): sends a `GetParameterCommand`
for `name` and returns the parameter's value; no caching of any kind. -/
def getParameter (w : World) (name : String) : Except JsError String :=
  w.params name

/-- Parameter name fetched on `authEdge.js` line 52. -/
def poolIdParamName : String := "/publisher/user-pool-id"

/-- Parameter name fetched on `authEdge.js` line 53. -/
def clientIdParamName : String := "/publisher/user-pool-client-id"

/-- The body of the `try` block on `authEdge.js` lines 51-61: fetch the two
parameters, build the verifier, verify the token.  Returns the outcome
together with the list of parameter-store fetches issued (a failed `await`
aborts the sequence, so a failing first fetch issues no second fetch). -/
def verifyStage (w : World) (token : String) :
    Except JsError Unit × List String :=
  match getParameter w poolIdParamName with
  | .error e => (.error e, [poolIdParamName])
  | .ok poolId =>
    match getParameter w clientIdParamName with
    | .error e => (.error e, [poolIdParamName, clientIdParamName])
    | .ok clientId =>
      match w.verify poolId clientId token with
      | .error e => (.error e, [poolIdParamName, clientIdParamName])
      | .ok _ => (.ok (), [poolIdParamName, clientIdParamName])

/-- Per-invocation instrumentation: parameter-store fetches issued, dispatches
handed to the transport, and errors written via `console.error`. -/
structure InvocationLog where
  fetches : List String
  dispatches : List Dispatch
  logged : List JsError
deriving Repr, DecidableEq

/-- The final body string forwarded to the origin, as its UTF-8 bytes
(`authEdge.js` lines 99-104): base64 bodies are decoded
(`Buffer.from(data, 'base64').toString('utf-8')`), other bodies are used as
delivered; the decoded value is a string, so the `JSON.stringify` arm of the
ternary on line 104 is never taken. -/
def decodeBodyData (b : ReqBody) : List Nat :=
  if b.encoding = "base64" then b64ToBytes b.data.data else utf8Bytes b.data

/-- The body-attachment step of `signAndForwardRequest` (`authEdge.js` lines
98-106): when the request carries a (truthy) body, decode it, set it as the
options body and append its `Content-Length` header; otherwise the options
pass through unchanged. -/
def forwardOptions (reqBody : Option ReqBody) (signV4Options : SignOptions) :
    SignOptions :=
  match reqBody with
  | some b =>
    if b.data ≠ "" then
      { signV4Options with
          body := some (decodeBodyData b),
          headers := signV4Options.headers ++
            [("Content-Length", Nat.repr (decodeBodyData b).length)] }
    else signV4Options
  | none => signV4Options

/-- The axios call configuration built on `authEdge.js` lines 108-114:
`{...sigv4.sign(opts), url: apiUrl.href, timeout: 5000, data: opts.body}`. -/
def mkDispatch (m : ModuleState) (opts : SignOptions) (apiUrl : UrlParts) :
    Dispatch :=
  { method := (sigv4Sign m.sigv4 opts).opts.method,
    hostname := (sigv4Sign m.sigv4 opts).opts.hostname,
    path := (sigv4Sign m.sigv4 opts).opts.path,
    protocol := (sigv4Sign m.sigv4 opts).opts.protocol,
    query := (sigv4Sign m.sigv4 opts).opts.query,
    headers := (sigv4Sign m.sigv4 opts).headers,
    contextHeaders := opts.headers,
    signedWith := (sigv4Sign m.sigv4 opts).signedWith,
    url := apiUrl.href, timeout := 5000, data := opts.body }

/-- `signAndForwardRequest` (`authEdge.js` lines 97-121): attach the decoded
body and its `Content-Length` when the request carries one, sign, dispatch via
axios, and map a successful response to the 200 shape.  The dispatch handed
to axios is returned for instrumentation; a transport failure surfaces as the
thrown error. -/
def signAndForwardRequest (w : World) (m : ModuleState) (cfRequest : CfRequest)
    (signV4Options : SignOptions) (apiUrl : UrlParts) :
    Except JsError ProxyResponse × List Dispatch :=
  match w.send (mkDispatch m (forwardOptions cfRequest.body signV4Options) apiUrl) with
  | .error e => (.error e, [mkDispatch m (forwardOptions cfRequest.body signV4Options) apiUrl])
  | .ok result =>
      (.ok { status := "200", statusDescription := "OK",
             body := Json.stringify result.data },
       [mkDispatch m (forwardOptions cfRequest.body signV4Options) apiUrl])

/-- Character-list version of a string's prefix test. -/
def listIsLead : List Char → List Char → Bool
  | [], _ => true
  | _ :: _, [] => false
  | p :: ps, c :: cs => p == c && listIsLead ps cs

/-- The JS `s.startsWith(pat)` test.  For the ASCII pattern `"Bearer "` used
by the handler, the JS UTF-16 prefix test agrees with this character-wise
test. -/
def jsStartsWith (s pat : String) : Bool :=
  listIsLead pat.data s.data

/-- Accumulator loop for `jsSplitOnSpace`. -/
def splitOnSpaceAux : List Char → List Char → List String
  | [], acc => [String.mk acc.reverse]
  | c :: cs, acc =>
      if c = Char.ofNat 32 then String.mk acc.reverse :: splitOnSpaceAux cs []
      else splitOnSpaceAux cs (c :: acc)

/-- The JS `s.split(' ')`: splits at every single space, keeping empty
fields. -/
def jsSplitOnSpace (s : String) : List String :=
  splitOnSpaceAux s.data []

/-- The token extraction of `authEdge.js` line 48:
`authHeader[0].value.split(' ')[1]` (reached only when the value starts with
`"Bearer "`, so the split always has a second element and the `match` default
is dead). -/
def bearerToken (v : String) : String :=
  match jsSplitOnSpace v with
  | _ :: t :: _ => t
  | _ => ""

/-- The `signV4Options` literal of `authEdge.js` lines 73-83: method, host,
path-with-query, protocol and query from the reconstructed URL and the
request, and a headers object holding exactly the inbound content type and
the target host. -/
def mkSignV4Options (cfRequest : CfRequest) (ct : HeaderVal) (apiUrl : UrlParts) :
    SignOptions :=
  { method := cfRequest.method, hostname := apiUrl.host,
    path := apiUrl.pathname ++
      (if cfRequest.querystring ≠ "" then "?" ++ cfRequest.querystring else ""),
    protocol := apiUrl.protocol, query := cfRequest.querystring,
    headers := [("Content-Type", ct.value), ("host", apiUrl.hostname)],
    body := none }

/-- The exported `handler` (`authEdge.js` lines 33-95), as a pure function of
the oracles, the module state and the request record.  Fallible property
accesses are explicit: reading `headers['content-type'][0].value` on line 80
happens outside every `try` block, so its failure is an uncaught
`TypeError`. -/
def handler (w : World) (m : ModuleState) (cfRequest : CfRequest) :
    Except JsError ProxyResponse × InvocationLog :=
  let headers := cfRequest.headers
  match hdrLookup headers "authorization" with
  | none => (.ok forbiddenResponse, ⟨[], [], []⟩)
  | some [] => (.ok forbiddenResponse, ⟨[], [], []⟩)
  | some (first :: _) =>
    if jsStartsWith first.value "Bearer " then
      match verifyStage w (bearerToken first.value) with
      | (.error e, fs) => (.ok forbiddenResponse, ⟨fs, [], [e]⟩)
      | (.ok _, fs) =>
        let apiUrl := mkUrl cfRequest.originDomainName cfRequest.uri
        match hdrLookup headers "content-type" with
        | none =>
            (.error (.typeError "Cannot read properties of undefined"),
             ⟨fs, [], []⟩)
        | some [] =>
            (.error (.typeError "Cannot read properties of undefined"),
             ⟨fs, [], []⟩)
        | some (ct :: _) =>
          match signAndForwardRequest w m cfRequest
              (mkSignV4Options cfRequest ct apiUrl) apiUrl with
          | (.ok resp, ds) => (.ok resp, ⟨fs, ds, []⟩)
          | (.error e, ds) => (.ok serverErrorResponse, ⟨fs, ds, [e]⟩)
    else (.ok forbiddenResponse, ⟨[], [], []⟩)

/-! ## Auxiliary lemmas -/

/-- The base64 alphabet map is injective on 6-bit values. -/
theorem charToSextet_sextetToChar {v : Nat} (h : v < 64) :
    charToSextet (sextetToChar v) = v := by
  revert h
  revert v
  decide

/-- No 6-bit value encodes to the padding character. -/
theorem sextetToChar_ne_pad {v : Nat} (h : v < 64) : sextetToChar v ≠ '=' := by
  revert h
  revert v
  decide

/-- Base64 round-trip: decoding the encoding of any byte sequence returns the
original bytes. -/
theorem b64ToBytes_bytesToB64 (bs : List Nat) (h : ∀ b ∈ bs, b < 256) :
    b64ToBytes (bytesToB64 bs) = bs := by
  induction bs using bytesToB64.induct with
  | case1 => rfl
  | case2 b1 =>
    have h1 : b1 < 256 := h b1 (by simp)
    have e1 := charToSextet_sextetToChar (show b1 / 4 < 64 by omega)
    have e2 := charToSextet_sextetToChar (show b1 % 4 * 16 < 64 by omega)
    simp [bytesToB64, b64ToBytes, e1, e2]
    omega
  | case3 b1 b2 =>
    have h1 : b1 < 256 := h b1 (by simp)
    have h2 : b2 < 256 := h b2 (by simp)
    have e1 := charToSextet_sextetToChar (show b1 / 4 < 64 by omega)
    have e2 := charToSextet_sextetToChar (show b1 % 4 * 16 + b2 / 16 < 64 by omega)
    have e3 := charToSextet_sextetToChar (show b2 % 16 * 4 < 64 by omega)
    have n1 := sextetToChar_ne_pad (show b2 % 16 * 4 < 64 by omega)
    simp [bytesToB64, b64ToBytes, e1, e2, e3, n1]
    omega
  | case4 b1 b2 b3 rest ih =>
    have h1 : b1 < 256 := h b1 (by simp)
    have h2 : b2 < 256 := h b2 (by simp)
    have h3 : b3 < 256 := h b3 (by simp)
    have hrest : ∀ b ∈ rest, b < 256 := fun b hb => h b (by simp [hb])
    have e1 := charToSextet_sextetToChar (show b1 / 4 < 64 by omega)
    have e2 := charToSextet_sextetToChar (show b1 % 4 * 16 + b2 / 16 < 64 by omega)
    have e3 := charToSextet_sextetToChar (show b2 % 16 * 4 + b3 / 64 < 64 by omega)
    have e4 := charToSextet_sextetToChar (show b3 % 64 < 64 by omega)
    have n1 := sextetToChar_ne_pad (show b2 % 16 * 4 + b3 / 64 < 64 by omega)
    have n2 := sextetToChar_ne_pad (show b3 % 64 < 64 by omega)
    simp [bytesToB64, b64ToBytes, e1, e2, e3, e4, n1, n2, ih hrest]
    omega

/-- Every unicode scalar value is below `0x110000`. -/
theorem char_toNat_lt_unicode (c : Char) : c.toNat < 1114112 := by
  rcases c.valid with h | ⟨_, h⟩
  · exact Nat.lt_trans h (by norm_num)
  · exact h

/-- UTF-8 encoding of one scalar value produces only bytes. -/
theorem utf8EncodeCharN_lt (c : Nat) (hc : c < 1114112) :
    ∀ b ∈ utf8EncodeCharN c, b < 256 := by
  intro b hb
  unfold utf8EncodeCharN at hb
  split at hb
  · simp at hb
    omega
  · split at hb
    · simp at hb
      rcases hb with hb | hb <;> omega
    · split at hb
      · simp at hb
        rcases hb with hb | hb | hb <;> omega
      · simp at hb
        rcases hb with hb | hb | hb | hb <;> omega

/-- The UTF-8 representation of a string consists of bytes. -/
theorem utf8Bytes_lt (s : String) : ∀ b ∈ utf8Bytes s, b < 256 := by
  intro b hb
  unfold utf8Bytes at hb
  rw [List.mem_flatten] at hb
  obtain ⟨l, hl, hb⟩ := hb
  rw [List.mem_map] at hl
  obtain ⟨c, _, rfl⟩ := hl
  exact utf8EncodeCharN_lt _ (char_toNat_lt_unicode c) b hb

/-- UTF-8 encoding of one scalar value is never empty. -/
theorem utf8EncodeCharN_ne_nil (c : Nat) : utf8EncodeCharN c ≠ [] := by
  unfold utf8EncodeCharN
  split
  · simp
  · split
    · simp
    · split <;> simp

/-- A non-empty string has a non-empty UTF-8 representation. -/
theorem utf8Bytes_ne_nil (s : String) (hs : s ≠ "") : utf8Bytes s ≠ [] := by
  unfold utf8Bytes
  intro hcon
  rcases hd : s.data with _ | ⟨c, cs⟩
  · exact hs (by cases s; simp_all)
  · rw [hd] at hcon
    simp only [List.map_cons, List.flatten_cons] at hcon
    rcases List.append_eq_nil.mp hcon with ⟨h1, _⟩
    exact utf8EncodeCharN_ne_nil _ h1

/-- Base64 encoding of a non-empty byte sequence is non-empty text. -/
theorem bytesToB64_ne_nil (bs : List Nat) (hbs : bs ≠ []) : bytesToB64 bs ≠ [] := by
  unfold bytesToB64
  split <;> simp_all

/-! ## Concrete fixtures shared by witnesses and counterexamples -/

/-- An environment as read at module load time. -/
def envLoad : ProcessEnv :=
  { AWS_ACCESS_KEY_ID := "AKIDLOAD", AWS_SECRET_ACCESS_KEY := "SECRETLOAD",
    AWS_SESSION_TOKEN := "SESSIONLOAD" }

/-- A rotated environment, differing from `envLoad` in every field. -/
def envRotated : ProcessEnv :=
  { AWS_ACCESS_KEY_ID := "AKIDNEW", AWS_SECRET_ACCESS_KEY := "SECRETNEW",
    AWS_SESSION_TOKEN := "SESSIONNEW" }

/-- Module state of a process that loaded with `envLoad`. -/
def mLoad : ModuleState := moduleInit envLoad

/-- A sample origin response with a non-2xx status code. -/
def okOrigin : OriginResp := { status := 404, data := Json.jstr "hello" }

/-- A world where every collaborator succeeds. -/
def wHappy : World :=
  { params := fun _ => .ok "param-value",
    verify := fun _ _ _ => .ok (),
    send := fun _ => .ok okOrigin }

/-- A world whose verifier rejects every token. -/
def wVerifyFails : World :=
  { wHappy with verify := fun _ _ _ => .error (.thrown "JwtExpiredError") }

/-- A world whose parameter store is unreachable. -/
def wStoreDown : World :=
  { wHappy with params := fun _ => .error (.thrown "ParameterNotFound") }

/-- A world whose origin transport times out. -/
def wOriginDown : World :=
  { wHappy with send := fun _ => .error (.thrown "ETIMEDOUT") }

/-- A sample JSON body string. -/
def sampleBodyJson : String := "\x7b\"name\":\"joe\"\x7d"

/-- A POST request with a valid-looking bearer header, a content type, a
query string and a base64-encoded JSON body. -/
def evPost : CfRequest :=
  { method := "POST", uri := "/items", querystring := "a=1",
    headers := [("authorization", [{ value := "Bearer eyJtoken" }]),
                ("content-type", [{ value := "application/json" }])],
    originDomainName := "api.example.com",
    body := some { data := String.mk (bytesToB64 (utf8Bytes sampleBodyJson)),
                   encoding := "base64" } }

/-- A GET request with no body and no query string. -/
def evGetNoBody : CfRequest :=
  { evPost with method := "GET", body := none, querystring := "" }

/-- A request with no `authorization` header at all. -/
def evNoAuth : CfRequest :=
  { evPost with headers := [("content-type", [{ value := "application/json" }])] }

/-- A request whose `authorization` header has an empty value list. -/
def evEmptyAuthVals : CfRequest :=
  { evPost with
      headers := [("authorization", []),
                  ("content-type", [{ value := "application/json" }])] }

/-- A request using a non-Bearer authorization scheme. -/
def evBadScheme : CfRequest :=
  { evPost with
      headers := [("authorization", [{ value := "Basic dXNlcjpwdw" }]),
                  ("content-type", [{ value := "application/json" }])] }

/-- A plain GET carrying a valid bearer header but no `content-type` header
(a perfectly ordinary request: GETs usually have no content type). -/
def evNoContentType : CfRequest :=
  { evPost with
      method := "GET", body := none, querystring := "",
      headers := [("authorization", [{ value := "Bearer eyJtoken" }])] }

deriving instance DecidableEq for Except

/-! ## Claim theorems -/

/-- C1 (code_bug exhibit): the claim says every invocation returns one of the
three `ProxyResponse` shapes and the caller never observes a raw exception.
The code violates this: on a request whose token verifies but which carries
no `content-type` header, line 80 of `authEdge.js` evaluates
`headers['content-type'][0]` on `undefined` outside every `try` block, so the
invocation ends in an uncaught `TypeError` instead of a response. -/
theorem handler_raw_exception_on_missing_content_type :
    (handler wHappy mLoad evNoContentType).1 =
      .error (.typeError "Cannot read properties of undefined") := by
  decide

/-- C2: a request whose `authorization` header is absent, has no values, or
whose first value does not start with `"Bearer "` gets exactly the
403/Forbidden/Unauthorized response, with no parameter fetch, no dispatch to
the origin and nothing logged. -/
theorem handler_403_on_missing_or_malformed_auth
    (w : World) (m : ModuleState) (cfRequest : CfRequest)
    (h : hdrLookup cfRequest.headers "authorization" = none ∨
         hdrLookup cfRequest.headers "authorization" = some [] ∨
         ∃ first rest,
           hdrLookup cfRequest.headers "authorization" = some (first :: rest) ∧
             jsStartsWith first.value "Bearer " = false) :
    handler w m cfRequest = (.ok forbiddenResponse, ⟨[], [], []⟩) := by
  unfold handler
  rcases h with h | h | ⟨first, rest, h, hb⟩
  · dsimp only
    rw [h]
  · dsimp only
    rw [h]
  · dsimp only
    rw [h]
    simp [hb]

/-- Witness for C2: a concrete request with a `Basic` scheme is rejected. -/
theorem handler_403_on_missing_or_malformed_auth_witness :
    handler wHappy mLoad evBadScheme = (.ok forbiddenResponse, ⟨[], [], []⟩) :=
  handler_403_on_missing_or_malformed_auth wHappy mLoad evBadScheme
    (Or.inr (Or.inr ⟨{ value := "Basic dXNlcjpwdw" }, [], by decide, by decide⟩))

/-- C3: for a well-formed Bearer header, any failure inside the verification
`try` block — parameter-store fetch failure of either parameter or a verifier
exception, whatever its cause — yields the single uniform
403/Forbidden/Unauthorized response, the underlying cause is logged, and no
dispatch reaches the origin. -/
theorem handler_uniform_403_on_verification_failure
    (w : World) (m : ModuleState) (cfRequest : CfRequest)
    (first : HeaderVal) (rest : List HeaderVal) (e : JsError)
    (hauth : hdrLookup cfRequest.headers "authorization" = some (first :: rest))
    (hbearer : jsStartsWith first.value "Bearer " = true)
    (hfail : (verifyStage w (bearerToken first.value)).1 = .error e) :
    handler w m cfRequest =
      (.ok forbiddenResponse,
        ⟨(verifyStage w (bearerToken first.value)).2, [], [e]⟩) := by
  unfold handler
  dsimp only
  rw [hauth]
  rcases hv : verifyStage w (bearerToken first.value) with ⟨r, fs⟩
  rw [hv] at hfail
  simp only at hfail
  subst hfail
  simp [hbearer, hv]

/-- Witness for C3: a concrete run against a world whose verifier throws an
expiry error. -/
theorem handler_uniform_403_on_verification_failure_witness :
    handler wVerifyFails mLoad evPost =
      (.ok forbiddenResponse,
        ⟨[poolIdParamName, clientIdParamName], [], [.thrown "JwtExpiredError"]⟩) := by
  have h := handler_uniform_403_on_verification_failure wVerifyFails mLoad evPost
    { value := "Bearer eyJtoken" } [] (.thrown "JwtExpiredError")
    (by decide) (by decide) (by decide)
  exact h.trans (by decide)

/-- C4: when the token verifies, a content type is present, and the origin
transport resolves with a response `r` — whatever its HTTP status code — the
handler returns `200 OK` with body `JSON.stringify(r.data)`; the origin
status is never inspected. -/
theorem handler_200_with_serialized_origin_payload
    (w : World) (m : ModuleState) (cfRequest : CfRequest)
    (first : HeaderVal) (rest : List HeaderVal)
    (ct : HeaderVal) (ctRest : List HeaderVal) (r : OriginResp)
    (hauth : hdrLookup cfRequest.headers "authorization" = some (first :: rest))
    (hbearer : jsStartsWith first.value "Bearer " = true)
    (hok : (verifyStage w (bearerToken first.value)).1 = .ok ())
    (hct : hdrLookup cfRequest.headers "content-type" = some (ct :: ctRest))
    (hsend : ∀ d, w.send d = .ok r) :
    (handler w m cfRequest).1 =
      .ok { status := "200", statusDescription := "OK",
            body := Json.stringify r.data } := by
  unfold handler
  dsimp only
  rw [hauth]
  rcases hv : verifyStage w (bearerToken first.value) with ⟨rr, fs⟩
  rw [hv] at hok
  simp only at hok
  subst hok
  unfold signAndForwardRequest
  simp [hbearer, hct, hsend, hv]

/-- Witness for C4: a concrete run where the origin answers with status 404;
the proxy response is still `200 OK` carrying the serialized payload. -/
theorem handler_200_with_serialized_origin_payload_witness :
    (handler wHappy mLoad evPost).1 =
      .ok { status := "200", statusDescription := "OK", body := "\"hello\"" } := by
  have h := handler_200_with_serialized_origin_payload wHappy mLoad evPost
    { value := "Bearer eyJtoken" } [] { value := "application/json" } [] okOrigin
    (by decide) (by decide) (by decide) (by decide) (fun d => rfl)
  exact h.trans (by decide)

/-- C5: when the token verifies and a content type is present but the origin
dispatch fails at the transport level with error `e`, the handler returns
exactly the 500/Internal Server Error shape and logs `e`. -/
theorem handler_500_on_transport_failure
    (w : World) (m : ModuleState) (cfRequest : CfRequest)
    (first : HeaderVal) (rest : List HeaderVal)
    (ct : HeaderVal) (ctRest : List HeaderVal) (e : JsError)
    (hauth : hdrLookup cfRequest.headers "authorization" = some (first :: rest))
    (hbearer : jsStartsWith first.value "Bearer " = true)
    (hok : (verifyStage w (bearerToken first.value)).1 = .ok ())
    (hct : hdrLookup cfRequest.headers "content-type" = some (ct :: ctRest))
    (hsend : ∀ d, w.send d = .error e) :
    (handler w m cfRequest).1 = .ok serverErrorResponse ∧
      (handler w m cfRequest).2.logged = [e] := by
  unfold handler
  dsimp only
  rw [hauth]
  rcases hv : verifyStage w (bearerToken first.value) with ⟨rr, fs⟩
  rw [hv] at hok
  simp only at hok
  subst hok
  unfold signAndForwardRequest
  simp [hbearer, hct, hsend, hv]

/-- Witness for C5: a concrete run against a world whose transport times
out. -/
theorem handler_500_on_transport_failure_witness :
    (handler wOriginDown mLoad evPost).1 = .ok serverErrorResponse ∧
      (handler wOriginDown mLoad evPost).2.logged = [.thrown "ETIMEDOUT"] :=
  handler_500_on_transport_failure wOriginDown mLoad evPost
    { value := "Bearer eyJtoken" } [] { value := "application/json" } []
    (.thrown "ETIMEDOUT")
    (by decide) (by decide) (by decide) (by decide) (fun d => rfl)

/-- The dispatch list of a forward attempt is always the single axios call
configuration, whether the transport succeeds or fails. -/
theorem signAndForwardRequest_dispatches (w : World) (m : ModuleState)
    (cfRequest : CfRequest) (signV4Options : SignOptions) (apiUrl : UrlParts) :
    (signAndForwardRequest w m cfRequest signV4Options apiUrl).2 =
      [mkDispatch m (forwardOptions cfRequest.body signV4Options) apiUrl] := by
  unfold signAndForwardRequest
  rcases h : w.send (mkDispatch m (forwardOptions cfRequest.body signV4Options) apiUrl)
    with e | r <;> simp [h]

/-- Fetches performed by the verification stage: the first parameter alone
(when its fetch fails) or both parameters in order. -/
theorem verifyStage_fetches (w : World) (token : String) :
    (verifyStage w token).2 = [poolIdParamName] ∨
    (verifyStage w token).2 = [poolIdParamName, clientIdParamName] := by
  unfold verifyStage getParameter
  rcases h1 : w.params poolIdParamName with e | p
  · simp [h1]
  · rcases h2 : w.params clientIdParamName with e | c
    · simp [h1, h2]
    · rcases h3 : w.verify p c token with e | u <;> simp [h1, h2, h3]

/-- Once the header check passes, the parameter-store fetches of an
invocation are exactly those of the verification stage, in every outcome. -/
theorem handler_fetches_eq_verifyStage (w : World) (m : ModuleState)
    (cfRequest : CfRequest) (first : HeaderVal) (rest : List HeaderVal)
    (hauth : hdrLookup cfRequest.headers "authorization" = some (first :: rest))
    (hbearer : jsStartsWith first.value "Bearer " = true) :
    (handler w m cfRequest).2.fetches =
      (verifyStage w (bearerToken first.value)).2 := by
  unfold handler
  dsimp only
  rw [hauth]
  rcases hv : verifyStage w (bearerToken first.value) with ⟨r, fs⟩
  rcases r with e | u
  · simp [hbearer, hv]
  · rcases hct : hdrLookup cfRequest.headers "content-type" with _ | ctvals
    · simp [hbearer, hv, hct]
    · rcases ctvals with _ | ⟨ct, ctRest⟩
      · simp [hbearer, hv, hct]
      · rcases hsf : signAndForwardRequest w m cfRequest
            (mkSignV4Options cfRequest ct (mkUrl cfRequest.originDomainName cfRequest.uri))
            (mkUrl cfRequest.originDomainName cfRequest.uri) with ⟨res, ds⟩
        rcases res with e | resp <;> simp [hbearer, hv, hct, hsf]

/-- Every invocation dispatches either nothing or exactly the one signed axios
configuration built from the inbound request's first content-type value. -/
theorem handler_dispatches_shape (w : World) (m : ModuleState)
    (cfRequest : CfRequest) :
    (handler w m cfRequest).2.dispatches = [] ∨
    ∃ ct ctRest,
      hdrLookup cfRequest.headers "content-type" = some (ct :: ctRest) ∧
      (handler w m cfRequest).2.dispatches =
        [mkDispatch m
          (forwardOptions cfRequest.body
            (mkSignV4Options cfRequest ct (mkUrl cfRequest.originDomainName cfRequest.uri)))
          (mkUrl cfRequest.originDomainName cfRequest.uri)] := by
  unfold handler
  dsimp only
  rcases hauth : hdrLookup cfRequest.headers "authorization" with _ | vals
  · simp [hauth]
  · rcases vals with _ | ⟨first, rest⟩
    · simp [hauth]
    · by_cases hb : jsStartsWith first.value "Bearer " = true
      · rcases hv : verifyStage w (bearerToken first.value) with ⟨r, fs⟩
        rcases r with e | u
        · simp [hauth, hb, hv]
        · rcases hct : hdrLookup cfRequest.headers "content-type" with _ | ctvals
          · simp [hauth, hb, hv, hct]
          · rcases ctvals with _ | ⟨ct, ctRest⟩
            · simp [hauth, hb, hv, hct]
            · right
              refine ⟨ct, ctRest, rfl, ?_⟩
              rcases hsf : signAndForwardRequest w m cfRequest
                  (mkSignV4Options cfRequest ct (mkUrl cfRequest.originDomainName cfRequest.uri))
                  (mkUrl cfRequest.originDomainName cfRequest.uri) with ⟨res, ds⟩
              have hds := signAndForwardRequest_dispatches w m cfRequest
                (mkSignV4Options cfRequest ct (mkUrl cfRequest.originDomainName cfRequest.uri))
                (mkUrl cfRequest.originDomainName cfRequest.uri)
              rw [hsf] at hds
              rcases res with e | resp <;> simp [hauth, hb, hv, hct, hsf] <;> exact hds
      · simp [hauth, hb]

/-- The parameter-store fetches issued by two consecutive invocations in the
same warm process (same module state, same world). -/
def twoInvocationFetches (w : World) (m : ModuleState) (e1 e2 : CfRequest) :
    List String :=
  (handler w m e1).2.fetches ++ (handler w m e2).2.fetches

/-- C6 counterexample: `getParameter` has no cache of any kind, so two
consecutive invocations of a warm process fetch `/publisher/user-pool-id`
twice — refuting "at most one parameter-store fetch per parameter name with
the later invocation reusing the cached value". -/
theorem warm_process_fetches_pool_param_twice :
    (twoInvocationFetches wHappy mLoad evPost evPost).count poolIdParamName = 2 ∧
    ¬ ((twoInvocationFetches wHappy mLoad evPost evPost).count poolIdParamName ≤ 1) := by
  constructor
  · decide
  · decide

/-- C6 amended: there is no cross-invocation cache; every invocation that
passes the header check issues its own fetch of the pool-id parameter
(exactly one per invocation, at most one for the client-id parameter), so two
consecutive warm invocations issue two pool-id fetches. -/
theorem no_cache_one_pool_fetch_per_invocation
    (w : World) (m : ModuleState) (cfRequest : CfRequest)
    (first : HeaderVal) (rest : List HeaderVal)
    (hauth : hdrLookup cfRequest.headers "authorization" = some (first :: rest))
    (hbearer : jsStartsWith first.value "Bearer " = true) :
    (handler w m cfRequest).2.fetches.count poolIdParamName = 1 ∧
    (handler w m cfRequest).2.fetches.count clientIdParamName ≤ 1 ∧
    (twoInvocationFetches w m cfRequest cfRequest).count poolIdParamName = 2 := by
  have hf := handler_fetches_eq_verifyStage w m cfRequest first rest hauth hbearer
  have hv := verifyStage_fetches w (bearerToken first.value)
  unfold twoInvocationFetches
  rw [List.count_append, hf]
  rcases hv with h | h <;> rw [h] <;> exact ⟨by decide, by decide, by decide⟩

/-- Witness for the amended C6 statement at a concrete happy-path run. -/
theorem no_cache_one_pool_fetch_per_invocation_witness :
    (handler wHappy mLoad evPost).2.fetches.count poolIdParamName = 1 ∧
    (handler wHappy mLoad evPost).2.fetches.count clientIdParamName ≤ 1 ∧
    (twoInvocationFetches wHappy mLoad evPost evPost).count poolIdParamName = 2 :=
  no_cache_one_pool_fetch_per_invocation wHappy mLoad evPost
    { value := "Bearer eyJtoken" } [] (by decide) (by decide)

/-- C7 counterexample: the signing credentials are captured from the
environment once, when the module loads.  In a process loaded under `envLoad`
whose environment has since rotated to `envRotated` (all three values
changed), the dispatch is still signed with the load-time credentials, which
differ from the current environment's — refuting "read fresh per signing
call, so later signatures use the new values". -/
theorem signing_ignores_rotated_environment :
    (handler wHappy (moduleInit envLoad) evPost).2.dispatches.map
        Dispatch.signedWith = [(moduleInit envLoad).sigv4.credentials] ∧
    (moduleInit envLoad).sigv4.credentials ≠
      (moduleInit envRotated).sigv4.credentials := by
  constructor
  · decide
  · decide

/-- C7 amended: every dispatch of every invocation is signed with exactly the
credentials captured at module initialisation from the load-time environment;
no later environment read occurs. -/
theorem dispatches_signed_with_load_time_credentials
    (env : ProcessEnv) (w : World) (cfRequest : CfRequest) :
    ((handler w (moduleInit env) cfRequest).2.dispatches.all
      (fun d => d.signedWith == (moduleInit env).sigv4.credentials)) = true := by
  rcases handler_dispatches_shape w (moduleInit env) cfRequest with h | ⟨ct, ctRest, hct, h⟩ <;>
    rw [h] <;> simp [mkDispatch, sigv4Sign]

/-- C8 (code_bug exhibit): the URL given to axios is `apiUrl.href`, built on
line 71 from the domain and `cfRequest.uri` alone; the query string appears
only in the signed `path` option (line 76), which axios ignores.  On a
request with query string `a=1` the signed canonical path is `/items?a=1`
but the dispatch goes to `https://api.example.com/items` — the query string
is dropped from the URL actually requested. -/
theorem dispatch_url_omits_query_string :
    evPost.querystring = "a=1" ∧
    (handler wHappy mLoad evPost).2.dispatches.map Dispatch.url =
      ["https://api.example.com/items"] ∧
    (handler wHappy mLoad evPost).2.dispatches.map Dispatch.path =
      ["/items?a=1"] ∧
    ("https://api.example.com/items" : String) ≠
      "https://api.example.com/items?a=1" := by
  refine ⟨rfl, by decide, by decide, by decide⟩

/-- A key absent from the front of an association list is looked up in the
tail. -/
theorem lookup_append_of_none {α β : Type} [BEq α] (k : α)
    (l1 l2 : List (α × β)) (h : List.lookup k l1 = none) :
    List.lookup k (l1 ++ l2) = List.lookup k l2 := by
  induction l1 with
  | nil => simp
  | cons p l ih =>
    rcases p with ⟨a, b⟩
    by_cases hk : (k == a) = true
    · simp [List.lookup, hk] at h
    · simp [List.lookup, hk] at h ⊢
      exact ih h

/-- A non-empty character list makes a non-empty string. -/
theorem stringMk_ne_empty {l : List Char} (h : l ≠ []) : String.mk l ≠ "" := by
  intro hcon
  apply h
  have hd : (String.mk l).data = ("" : String).data := by rw [hcon]
  simpa using hd

/-- In the verified-with-content-type case the invocation dispatches exactly
the one signed axios configuration. -/
theorem handler_verified_dispatches (w : World) (m : ModuleState)
    (cfRequest : CfRequest) (first : HeaderVal) (rest : List HeaderVal)
    (ct : HeaderVal) (ctRest : List HeaderVal)
    (hauth : hdrLookup cfRequest.headers "authorization" = some (first :: rest))
    (hbearer : jsStartsWith first.value "Bearer " = true)
    (hok : (verifyStage w (bearerToken first.value)).1 = .ok ())
    (hct : hdrLookup cfRequest.headers "content-type" = some (ct :: ctRest)) :
    (handler w m cfRequest).2.dispatches =
      [mkDispatch m
        (forwardOptions cfRequest.body
          (mkSignV4Options cfRequest ct (mkUrl cfRequest.originDomainName cfRequest.uri)))
        (mkUrl cfRequest.originDomainName cfRequest.uri)] := by
  unfold handler
  dsimp only
  rw [hauth]
  rcases hv : verifyStage w (bearerToken first.value) with ⟨r, fs⟩
  rw [hv] at hok
  simp only at hok
  subst hok
  rcases hsf : signAndForwardRequest w m cfRequest
      (mkSignV4Options cfRequest ct (mkUrl cfRequest.originDomainName cfRequest.uri))
      (mkUrl cfRequest.originDomainName cfRequest.uri) with ⟨res, ds⟩
  have hds := signAndForwardRequest_dispatches w m cfRequest
    (mkSignV4Options cfRequest ct (mkUrl cfRequest.originDomainName cfRequest.uri))
    (mkUrl cfRequest.originDomainName cfRequest.uri)
  rw [hsf] at hds
  rcases res with e | resp <;> simp [hbearer, hv, hct, hsf] <;> exact hds

/-- C9: for a dispatched request whose body is the base64 encoding of a JSON
string `s`, the forwarded body is exactly the original string (round-trip
through base64) and the forwarded `content-length` header is the exact byte
length of that string; for a dispatched request with no body, no body and no
`content-length` header are forwarded. -/
theorem forwarded_body_roundtrip_and_content_length
    (w : World) (m : ModuleState) (cfA cfB : CfRequest) (s : String)
    (signV4Options : SignOptions) (apiUrl : UrlParts)
    (hs : s ≠ "")
    (hopts : List.lookup "Content-Length" signV4Options.headers = none)
    (hnobody : signV4Options.body = none)
    (hbodyA : cfA.body =
      some { data := String.mk (bytesToB64 (utf8Bytes s)), encoding := "base64" })
    (hbodyB : cfB.body = none) :
    ((signAndForwardRequest w m cfA signV4Options apiUrl).2.map Dispatch.data =
      [some (utf8Bytes s)]) ∧
    ((signAndForwardRequest w m cfA signV4Options apiUrl).2.map
        (fun d => List.lookup "Content-Length" d.headers) =
      [some (Nat.repr (utf8Bytes s).length)]) ∧
    ((signAndForwardRequest w m cfB signV4Options apiUrl).2.map Dispatch.data =
      [none]) ∧
    ((signAndForwardRequest w m cfB signV4Options apiUrl).2.map
        (fun d => List.lookup "Content-Length" d.headers) =
      [none]) := by
  have hdata : String.mk (bytesToB64 (utf8Bytes s)) ≠ "" :=
    stringMk_ne_empty (bytesToB64_ne_nil _ (utf8Bytes_ne_nil s hs))
  have hrt : decodeBodyData
      { data := String.mk (bytesToB64 (utf8Bytes s)), encoding := "base64" } =
      utf8Bytes s := by
    unfold decodeBodyData
    simp only [if_pos rfl]
    exact b64ToBytes_bytesToB64 _ (utf8Bytes_lt s)
  rw [signAndForwardRequest_dispatches, signAndForwardRequest_dispatches,
      hbodyA, hbodyB]
  unfold forwardOptions
  dsimp only
  rw [if_pos hdata]
  refine ⟨?_, ?_, ?_, ?_⟩
  · simp [mkDispatch, hrt]
  · simp only [mkDispatch, sigv4Sign, List.map_cons, List.map_nil, hrt]
    rw [List.append_assoc, lookup_append_of_none _ _ _ hopts]
    simp [List.lookup]
  · simp [mkDispatch, hnobody]
  · simp only [mkDispatch, sigv4Sign, List.map_cons, List.map_nil]
    rw [lookup_append_of_none _ _ _ hopts]
    simp [List.lookup]

/-- Witness for C9 at a concrete run: base64-encoded 14-byte JSON body
round-trips, and the bodiless GET forwards no body and no content-length. -/
theorem forwarded_body_roundtrip_and_content_length_witness :
    ((signAndForwardRequest wHappy mLoad evPost
        (mkSignV4Options evPost { value := "application/json" }
          (mkUrl "api.example.com" "/items"))
        (mkUrl "api.example.com" "/items")).2.map Dispatch.data =
      [some (utf8Bytes sampleBodyJson)]) ∧
    ((signAndForwardRequest wHappy mLoad evPost
        (mkSignV4Options evPost { value := "application/json" }
          (mkUrl "api.example.com" "/items"))
        (mkUrl "api.example.com" "/items")).2.map
        (fun d => List.lookup "Content-Length" d.headers) =
      [some (Nat.repr (utf8Bytes sampleBodyJson).length)]) ∧
    ((signAndForwardRequest wHappy mLoad evGetNoBody
        (mkSignV4Options evPost { value := "application/json" }
          (mkUrl "api.example.com" "/items"))
        (mkUrl "api.example.com" "/items")).2.map Dispatch.data =
      [none]) ∧
    ((signAndForwardRequest wHappy mLoad evGetNoBody
        (mkSignV4Options evPost { value := "application/json" }
          (mkUrl "api.example.com" "/items"))
        (mkUrl "api.example.com" "/items")).2.map
        (fun d => List.lookup "Content-Length" d.headers) =
      [none]) :=
  forwarded_body_roundtrip_and_content_length wHappy mLoad evPost evGetNoBody
    sampleBodyJson
    (mkSignV4Options evPost { value := "application/json" }
      (mkUrl "api.example.com" "/items"))
    (mkUrl "api.example.com" "/items")
    (by decide) (by decide) (by decide) (by decide) (by decide)

/-- C10: for every dispatched request, the headers placed in the signing
context are exactly the inbound request's first content-type value and the
target host, plus a content-length exactly when a body is forwarded; the
signed request adds only the computed `Authorization` header, so no other
inbound header (in particular not the inbound bearer `authorization`) is
copied onto the forwarded request. -/
theorem signing_context_headers_exact
    (w : World) (m : ModuleState) (cfRequest : CfRequest)
    (first : HeaderVal) (rest : List HeaderVal)
    (ct : HeaderVal) (ctRest : List HeaderVal)
    (hauth : hdrLookup cfRequest.headers "authorization" = some (first :: rest))
    (hbearer : jsStartsWith first.value "Bearer " = true)
    (hok : (verifyStage w (bearerToken first.value)).1 = .ok ())
    (hct : hdrLookup cfRequest.headers "content-type" = some (ct :: ctRest)) :
    (hasForwardBody cfRequest.body = false →
      (handler w m cfRequest).2.dispatches.map Dispatch.contextHeaders =
        [[("Content-Type", ct.value), ("host", cfRequest.originDomainName)]]) ∧
    (∀ b, cfRequest.body = some b → b.data ≠ "" →
      (handler w m cfRequest).2.dispatches.map Dispatch.contextHeaders =
        [[("Content-Type", ct.value), ("host", cfRequest.originDomainName),
          ("Content-Length", Nat.repr (decodeBodyData b).length)]]) ∧
    ((handler w m cfRequest).2.dispatches.all
      (fun d => d.headers.map Prod.fst ==
        d.contextHeaders.map Prod.fst ++ ["Authorization"])) = true := by
  have hd := handler_verified_dispatches w m cfRequest first rest ct ctRest
    hauth hbearer hok hct
  refine ⟨?_, ?_, ?_⟩
  · intro hnb
    rw [hd]
    rcases hb : cfRequest.body with _ | b
    · simp [forwardOptions, mkDispatch, mkSignV4Options, mkUrl]
    · rw [hb] at hnb
      unfold hasForwardBody at hnb
      simp only [decide_eq_false_iff_not, ne_eq, not_not] at hnb
      simp [forwardOptions, mkDispatch, mkSignV4Options, mkUrl, hnb]
  · intro b hb hbd
    rw [hd, hb]
    simp [forwardOptions, mkDispatch, mkSignV4Options, mkUrl, hbd]
  · rw [hd]
    simp [mkDispatch, sigv4Sign]

/-- Witness for C10 at a concrete run: the signing context of the forwarded
POST holds exactly content type, host and content length, and the forwarded
headers are those plus the computed `Authorization`. -/
theorem signing_context_headers_exact_witness :
    (handler wHappy mLoad evPost).2.dispatches.map Dispatch.contextHeaders =
      [[("Content-Type", "application/json"), ("host", "api.example.com"),
        ("Content-Length", "14")]] ∧
    ((handler wHappy mLoad evPost).2.dispatches.all
      (fun d => d.headers.map Prod.fst ==
        d.contextHeaders.map Prod.fst ++ ["Authorization"])) = true := by
  have h := signing_context_headers_exact wHappy mLoad evPost
    { value := "Bearer eyJtoken" } [] { value := "application/json" } []
    (by decide) (by decide) (by decide) (by decide)
  refine ⟨?_, h.2.2⟩
  have h2 := h.2.1
    { data := String.mk (bytesToB64 (utf8Bytes sampleBodyJson)),
      encoding := "base64" } rfl (by decide)
  exact h2.trans (by decide)
